import Mathlib

/-!
Shallow embedding of the VibeHunt backend (src/main.py and src/schemas.py):
a product-discovery board storing posts, comments and toggleable votes in a
document store, with a listing endpoint that enriches posts with vote and
comment counts via an aggregation pipeline.

Modelling conventions:
- ObjectId values are modelled as natural numbers; their canonical text
  rendering (the str(...) call of the code) is a decimal string, and
  ObjectId(text) parsing accepts digit strings and fails on anything else.
  The properties the code relies on are kept: rendering is injective,
  parsing a rendering returns the original id, and parsing malformed text
  fails (the code maps that failure to a not-found response).
- BSON values carry their type: MongoDB equality never identifies values of
  different BSON types, in particular an ObjectId is never equal to a
  string.  This matters for the listing pipeline, whose lookup stages give
  both a localField/foreignField pair and a pipeline: MongoDB 5.0+ combines
  (ANDs) the field-equality match with the pipeline match.
- Timestamps are integers (seconds); timedelta(days=k) is k * 86400.
- The store handle is assumed configured (db is not None); the claims under
  study are about behaviour on the configured-store paths.
- The database module of the repository (create_document, get_documents) is
  not under src/; those two operations are modelled from the spec, as noted
  on their definitions.
-/

namespace VibeHunt

/-- BSON values relevant to this system: object ids and text. -/
inductive BsonValue where
  | oid (n : Nat)
  | str (s : String)
deriving DecidableEq

/-- MongoDB equality: values of different BSON types are never equal. -/
def bsonEq : BsonValue → BsonValue → Bool
  | .oid a, .oid b => a == b
  | .str a, .str b => a == b
  | _, _ => false

/-- Decimal digit character for the ObjectId text rendering: the code
point of the digit d is 48 + d. -/
def digitChar (d : Nat) : Char := Char.ofNat (48 + d % 10)

/-- Inverse of digitChar on digit characters; none on any other character. -/
def charDigit (c : Char) : Option Nat :=
  if 48 ≤ c.toNat ∧ c.toNat ≤ 57 then some (c.toNat - 48) else none

/-- Fuelled big-endian decimal rendering of a natural number. -/
def renderAux : Nat → Nat → List Char
  | 0, _ => []
  | fuel + 1, n => if n < 10 then [digitChar n] else renderAux fuel (n / 10) ++ [digitChar (n % 10)]

/-- The str(ObjectId) rendering of the code: id as text. -/
def oidToString (n : Nat) : String := ⟨renderAux (n + 1) n⟩

/-- Left fold of decimal digits; fails on the first non-digit character. -/
def parseDigits : List Char → Nat → Option Nat
  | [], acc => some acc
  | c :: cs, acc =>
    match charDigit c with
    | none => none
    | some d => parseDigits cs (acc * 10 + d)

/-- Character-list form of ObjectId parsing: empty text is malformed, and
otherwise every character must be a digit. -/
def parseIdChars : List Char → Option Nat
  | [] => none
  | c :: cs => parseDigits (c :: cs) 0

/-- The ObjectId(text) constructor of the code: parse text into an id,
failing (the code catches the raised error) when the text is malformed. -/
def parseObjectId (s : String) : Option Nat :=
  parseIdChars s.data

/-- A document of the post collection (schemas.Post plus the store-assigned
id and the timestamps the creation path attaches). -/
structure Post where
  id : Nat
  title : String
  description : String
  link : Option String
  tags : List String
  author_name : Option String
  created_at : Int
  updated_at : Int
deriving DecidableEq

/-- A document of the vote collection (schemas.Vote plus id and timestamps).
The post_id field is text: the code always stores str(post id). -/
structure Vote where
  id : Nat
  post_id : String
  client_id : String
  created_at : Int
  updated_at : Int
deriving DecidableEq

/-- A document of the comment collection (schemas.Comment plus id and
timestamps). -/
structure Comment where
  id : Nat
  post_id : String
  author_name : Option String
  content : String
  created_at : Int
  updated_at : Int
deriving DecidableEq

/-- The document store: the three collections plus the id supply for the
next inserted document (fresh-id assignment by the store). -/
structure Store where
  posts : List Post
  votes : List Vote
  comments : List Comment
  nextId : Nat
deriving DecidableEq

/-- The timeframe query parameter of GET /api/posts. -/
inductive Timeframe where
  | week | month | all
deriving DecidableEq

/-- The sort_by query parameter of GET /api/posts. -/
inductive SortBy where
  | votes | comments | latest
deriving DecidableEq

/-- Seconds in a day: timedelta(days = k) is k * 86400 seconds. -/
def secondsPerDay : Int := 86400

/-- The match filter built by list_posts: for week and month, only posts
with created_at at or after now minus 7 resp. 30 days; for all, no filter. -/
def timeMatch (tf : Timeframe) (now : Int) (p : Post) : Bool :=
  match tf with
  | .week => decide (now - 7 * secondsPerDay ≤ p.created_at)
  | .month => decide (now - 30 * secondsPerDay ≤ p.created_at)
  | .all => true

/-- The vote-side lookup condition of the listing pipeline.  The lookup
stage gives both localField "_id" / foreignField "post_id" and a pipeline;
MongoDB combines them, so a vote document matches when its post_id (a BSON
string) equals the post _id (a BSON ObjectId) AND its post_id equals
toString applied to the pipeline variable pid, itself toString of the post
_id (toString of a string is that string). -/
def voteLookupMatch (p : Post) (v : Vote) : Bool :=
  bsonEq (.str v.post_id) (.oid p.id) && v.post_id == oidToString p.id

/-- The comment-side lookup condition of the listing pipeline, built the
same way as the vote-side one. -/
def commentLookupMatch (p : Post) (c : Comment) : Bool :=
  bsonEq (.str c.post_id) (.oid p.id) && c.post_id == oidToString p.id

/-- A listing item: the post fields plus the two counts added by the
addFields stage (sizes of the lookup result arrays). -/
structure Item where
  post : Post
  votes_count : Nat
  comments_count : Nat
deriving DecidableEq

/-- Enrich one post with its votes_count and comments_count, per the two
lookup stages and the addFields stage of the pipeline. -/
def enrich (s : Store) (p : Post) : Item :=
  { post := p
    votes_count := (s.votes.filter (voteLookupMatch p)).length
    comments_count := (s.comments.filter (commentLookupMatch p)).length }

/-- Descending lexicographic order on a count key then a timestamp key,
as a boolean may-come-before relation for sorting. -/
def keyLe (a1 b1 : Nat) (a2 b2 : Int) : Bool :=
  decide (b1 < a1) || (a1 == b1 && decide (b2 ≤ a2))

/-- The sort stage selected by sort_by: votes_count descending then
created_at descending; comments_count descending then created_at
descending; or created_at descending alone. -/
def itemLe (sb : SortBy) (a b : Item) : Bool :=
  match sb with
  | .votes => keyLe a.votes_count b.votes_count a.post.created_at b.post.created_at
  | .comments => keyLe a.comments_count b.comments_count a.post.created_at b.post.created_at
  | .latest => decide (b.post.created_at ≤ a.post.created_at)

/-- The response shape of GET /api/posts. -/
structure ListResponse where
  items : List Item
  total : Nat
  page : Nat
  page_size : Nat
deriving DecidableEq

/-- GET /api/posts (list_posts of main.py): match the time filter, enrich
with counts, sort by the selected order, skip (page - 1) * page_size, limit
page_size, and report total as the count of posts matching the time filter
alone.  page and page_size arrive validated (page at least 1, page_size
between 1 and 50). -/
def list_posts (s : Store) (now : Int) (page page_size : Nat)
    (timeframe : Timeframe) (sort_by : SortBy) : ListResponse :=
  let filtered := s.posts.filter (timeMatch timeframe now)
  let sorted := (filtered.map (enrich s)).mergeSort (itemLe sort_by)
  { items := (sorted.drop ((page - 1) * page_size)).take page_size
    total := (s.posts.filter (timeMatch timeframe now)).length
    page := page
    page_size := page_size }

/-- Default query parameter page = 1 of list_posts. -/
def defaultPage : Nat := 1

/-- Default query parameter page_size = 8 of list_posts. -/
def defaultPageSize : Nat := 8

/-- Default query parameter timeframe = all of list_posts. -/
def defaultTimeframe : Timeframe := .all

/-- Default query parameter sort_by = votes of list_posts. -/
def defaultSortBy : SortBy := .votes

/-- GET /api/posts with every query parameter omitted. -/
def list_posts_default (s : Store) (now : Int) : ListResponse :=
  list_posts s now defaultPage defaultPageSize defaultTimeframe defaultSortBy

/-- Error outcomes of the write-path handlers: the not-found response of
comment creation and vote toggling, and the request-validation rejection
(naming the offending field) issued before a handler runs. -/
inductive ApiError where
  | notFound
  | validationError (field : String)
deriving DecidableEq

/-- The post-existence check shared by add_comment and toggle_vote: parse
the ObjectId text (failure is caught and treated as absence) and find a
post document with that id. -/
def findPost (s : Store) (post_id : String) : Option Post :=
  match parseObjectId post_id with
  | none => none
  | some o => s.posts.find? (fun p => p.id == o)

/-- The validated request body of POST /api/posts (PostCreate of main.py). -/
structure PostCreate where
  title : String
  description : String
  link : Option String
  tags : List String
  author_name : Option String
deriving DecidableEq

/-- The raw request body of POST /api/posts before validation: each field
either present as a value of its declared shape, or absent (a field of the
wrong primitive shape is likewise rejected and is modelled as absent). -/
structure PostCreateRaw where
  title : Option String
  description : Option String
  link : Option (Option String)
  tags : Option (List String)
  author_name : Option (Option String)
deriving DecidableEq

/-- Request validation of the PostCreate model: title and description are
required str fields (any string value is accepted, the model declares no
minimum length); link and author_name default to none and tags to the
empty list when omitted. -/
def validatePostCreate (raw : PostCreateRaw) : Except ApiError PostCreate :=
  match raw.title with
  | none => .error (.validationError "title")
  | some t =>
    match raw.description with
    | none => .error (.validationError "description")
    | some d =>
      .ok { title := t, description := d, link := raw.link.getD none,
            tags := raw.tags.getD [], author_name := raw.author_name.getD none }

/-- Modelled from the spec: create_document lives in the database module of
the repository, which is not under src/.  Per the store-adapter contract it
is insert_one assigning a fresh id, and per the data model the created
document carries created_at = updated_at = now.  This instance inserts a
post document. -/
def create_document_post (s : Store) (now : Int) (payload : PostCreate) : String × Store :=
  (oidToString s.nextId,
   { s with
     posts := s.posts ++ [{ id := s.nextId, title := payload.title,
                            description := payload.description, link := payload.link,
                            tags := payload.tags, author_name := payload.author_name,
                            created_at := now, updated_at := now }]
     nextId := s.nextId + 1 })

/-- POST /api/posts (create_post of main.py): insert the validated payload
as a post document and return its new id.  No existence precondition. -/
def create_post (s : Store) (now : Int) (payload : PostCreate) : Except ApiError String × Store :=
  let r := create_document_post s now payload
  (.ok r.1, r.2)

/-- POST /api/posts including request validation: a raw body failing
validation is rejected before the handler runs, so the store is untouched. -/
def create_post_endpoint (s : Store) (now : Int) (raw : PostCreateRaw) :
    Except ApiError String × Store :=
  match validatePostCreate raw with
  | .error e => (.error e, s)
  | .ok payload => create_post s now payload

/-- The validated request body of POST /api/comments (CommentCreate). -/
structure CommentCreate where
  post_id : String
  content : String
  author_name : Option String
deriving DecidableEq

/-- Modelled from the spec: the comment-collection instance of
create_document (see create_document_post). -/
def create_document_comment (s : Store) (now : Int) (payload : CommentCreate) : String × Store :=
  (oidToString s.nextId,
   { s with
     comments := s.comments ++ [{ id := s.nextId, post_id := payload.post_id,
                                  author_name := payload.author_name,
                                  content := payload.content,
                                  created_at := now, updated_at := now }]
     nextId := s.nextId + 1 })

/-- POST /api/comments (add_comment of main.py): fail with not found unless
post_id parses and resolves to an existing post, else insert the comment
and return its new id. -/
def add_comment (s : Store) (now : Int) (payload : CommentCreate) :
    Except ApiError String × Store :=
  match findPost s payload.post_id with
  | none => (.error .notFound, s)
  | some _ =>
    let r := create_document_comment s now payload
    (.ok r.1, r.2)

/-- The response body of POST /api/vote/toggle: the status text, and the
new vote id when one was created. -/
structure ToggleOut where
  status : String
  id : Option String
deriving DecidableEq

/-- The find_one filter of toggle_vote: a vote document matching the given
post_id and client_id exactly. -/
def voteKeyMatch (post_id client_id : String) (v : Vote) : Bool :=
  v.post_id == post_id && v.client_id == client_id

/-- Modelled from the spec: the vote-collection instance of create_document
(see create_document_post). -/
def create_document_vote (s : Store) (now : Int) (post_id client_id : String) : String × Store :=
  (oidToString s.nextId,
   { s with
     votes := s.votes ++ [{ id := s.nextId, post_id := post_id, client_id := client_id,
                            created_at := now, updated_at := now }]
     nextId := s.nextId + 1 })

/-- POST /api/vote/toggle (toggle_vote of main.py): fail with not found
unless post_id resolves to an existing post; then find_one a vote matching
(post_id, client_id): when found, delete_one by its id and answer status
unvoted; when absent, insert a new vote and answer status voted with the
new id. -/
def toggle_vote (s : Store) (now : Int) (post_id client_id : String) :
    Except ApiError ToggleOut × Store :=
  match findPost s post_id with
  | none => (.error .notFound, s)
  | some _ =>
    match s.votes.find? (voteKeyMatch post_id client_id) with
    | some existing =>
      (.ok { status := "unvoted", id := none },
       { s with votes := s.votes.eraseP (fun v => v.id == existing.id) })
    | none =>
      let r := create_document_vote s now post_id client_id
      (.ok { status := "voted", id := some r.1 }, r.2)

/-- The response shape of GET /api/comments/{post_id}. -/
structure CommentsResponse where
  items : List Comment
deriving DecidableEq

/-- Modelled from the spec: get_documents lives in the database module of
the repository, which is not under src/.  Per the store-adapter contract it
is find(collection, filter), returning every document matching the filter;
this instance queries the comment collection by post_id. -/
def get_documents_comment (s : Store) (post_id : String) : List Comment :=
  s.comments.filter (fun c => c.post_id == post_id)

/-- GET /api/comments/{post_id} (list_comments of main.py): return every
comment whose post_id field equals the path parameter; no post-existence
check is performed, so the call always succeeds on a configured store. -/
def list_comments (s : Store) (post_id : String) : Except ApiError CommentsResponse :=
  .ok { items := get_documents_comment s post_id }

/-- The operations of the system, as invoked by the API layer on a
configured store (read-only endpoints are listed for completeness). -/
inductive Op where
  | createPostOp (raw : PostCreateRaw)
  | addCommentOp (payload : CommentCreate)
  | toggleVoteOp (post_id client_id : String)
  | listPostsOp (page page_size : Nat) (tf : Timeframe) (sb : SortBy)
  | listCommentsOp (post_id : String)
  | rootOp
deriving DecidableEq

/-- The store reached after one operation executes sequentially at time
now (read-only operations leave the store unchanged). -/
def step (s : Store) (now : Int) : Op → Store
  | .createPostOp raw => (create_post_endpoint s now raw).2
  | .addCommentOp payload => (add_comment s now payload).2
  | .toggleVoteOp pid cid => (toggle_vote s now pid cid).2
  | .listPostsOp _ _ _ _ => s
  | .listCommentsOp _ => s
  | .rootOp => s

/-- The live votes of a (post_id, client_id) pair: every vote document in
the store matching that pair. -/
def liveVotes (s : Store) (post_id client_id : String) : List Vote :=
  s.votes.filter (voteKeyMatch post_id client_id)

/-- The vote-uniqueness invariant: at most one live vote per distinct
(post_id, client_id) pair. -/
def atMostOneVote (s : Store) : Prop :=
  ∀ post_id client_id : String, (liveVotes s post_id client_id).length ≤ 1

/-- The empty configured store. -/
def store0 : Store :=
  { posts := [], votes := [], comments := [], nextId := 0 }

/-- The vote document inserted by toggle_vote when none was found. -/
def mkVote (nid : Nat) (post_id client_id : String) (now : Int) : Vote :=
  { id := nid, post_id := post_id, client_id := client_id,
    created_at := now, updated_at := now }

/-- A one-post store whose single post has one vote and one comment, both
referencing it by its rendered id, exercising the listing lookup. -/

def post1 : Post :=
  { id := 1, title := "t", description := "d", link := none, tags := [],
    author_name := none, created_at := 0, updated_at := 0 }

def vote1 : Vote :=
  { id := 2, post_id := oidToString 1, client_id := "c1", created_at := 0, updated_at := 0 }

def comment1 : Comment :=
  { id := 3, post_id := oidToString 1, author_name := none, content := "hi",
    created_at := 0, updated_at := 0 }

def storeC1 : Store :=
  { posts := [post1], votes := [vote1], comments := [comment1], nextId := 4 }

/-- A one-post store with no votes or comments, used to exercise the claim
theorems on concrete data. -/

def postW : Post :=
  { id := 1, title := "X", description := "Y", link := none, tags := [],
    author_name := none, created_at := 0, updated_at := 0 }

def storeW : Store :=
  { posts := [postW], votes := [], comments := [], nextId := 2 }

/-- The raw POST /api/posts body whose title and description are both the
empty string. -/
def rawEmptyFields : PostCreateRaw :=
  { title := some "", description := some "", link := none, tags := none, author_name := none }

/-- Helper lemmas about the embedding. -/

theorem voteLookupMatch_false (p : Post) (v : Vote) : voteLookupMatch p v = false := by
  simp [voteLookupMatch, bsonEq]

theorem commentLookupMatch_false (p : Post) (c : Comment) : commentLookupMatch p c = false := by
  simp [commentLookupMatch, bsonEq]

theorem charDigit_digitChar {d : Nat} (h : d < 10) : charDigit (digitChar d) = some d := by
  interval_cases d <;> rfl

theorem parseDigits_append (xs ys : List Char) (acc : Nat) :
    parseDigits (xs ++ ys) acc =
      match parseDigits xs acc with
      | none => none
      | some a => parseDigits ys a := by
  induction xs generalizing acc with
  | nil => rfl
  | cons c cs ih =>
    simp only [List.cons_append, parseDigits]
    cases charDigit c with
    | none => rfl
    | some d => exact ih _

theorem renderAux_ne_nil (fuel n : Nat) : renderAux (fuel + 1) n ≠ [] := by
  rw [renderAux]
  split <;> simp

theorem parseDigits_renderAux : ∀ fuel n, n < 10 ^ fuel → parseDigits (renderAux fuel n) 0 = some n := by
  intro fuel
  induction fuel with
  | zero =>
    intro n h
    have hn : n = 0 := by simpa using h
    subst hn
    rfl
  | succ f ih =>
    intro n h
    rw [renderAux]
    split
    · rename_i h10
      simp only [parseDigits, charDigit_digitChar h10]
      simp
    · rename_i h10
      rw [parseDigits_append]
      have hp : n < 10 ^ f * 10 := by
        rw [← pow_succ]
        exact h
      have hd : n / 10 < 10 ^ f := by omega
      rw [ih _ hd]
      have hm : n % 10 < 10 := Nat.mod_lt _ (by norm_num)
      simp only [parseDigits, charDigit_digitChar hm]
      simp only [Option.some.injEq]
      omega

theorem parse_render (n : Nat) : parseObjectId (oidToString n) = some n := by
  have hb : n < 10 ^ (n + 1) :=
    lt_of_lt_of_le (Nat.lt_pow_self (by norm_num) n) (Nat.pow_le_pow_right (by norm_num) (Nat.le_succ n))
  have hmain := parseDigits_renderAux (n + 1) n hb
  show parseIdChars (renderAux (n + 1) n) = some n
  cases hr : renderAux (n + 1) n with
  | nil => exact absurd hr (renderAux_ne_nil n n)
  | cons c cs =>
    rw [hr] at hmain
    simpa only [parseIdChars] using hmain

theorem findPost_empty_posts (s : Store) (h : s.posts = []) (pid : String) :
    findPost s pid = none := by
  unfold findPost
  cases hp : parseObjectId pid <;> simp [h]

theorem eraseP_append_singleton {α : Type} (p : α → Bool) (l : List α) (a : α)
    (h : ∀ x ∈ l, p x = false) (ha : p a = true) : (l ++ [a]).eraseP p = l := by
  induction l with
  | nil => simp [List.eraseP_cons, ha]
  | cons x xs ih =>
    have hx := h x (by simp)
    simp only [List.cons_append, List.eraseP_cons, hx, cond_false]
    rw [ih (fun y hy => h y (by simp [hy]))]

theorem keyLe_trans {a1 b1 c1 : Nat} {a2 b2 c2 : Int}
    (h1 : keyLe a1 b1 a2 b2 = true) (h2 : keyLe b1 c1 b2 c2 = true) :
    keyLe a1 c1 a2 c2 = true := by
  simp only [keyLe, Bool.or_eq_true, Bool.and_eq_true, decide_eq_true_eq, beq_iff_eq] at h1 h2 ⊢
  omega

theorem keyLe_total (a1 b1 : Nat) (a2 b2 : Int) :
    (keyLe a1 b1 a2 b2 || keyLe b1 a1 b2 a2) = true := by
  simp only [keyLe, Bool.or_eq_true, Bool.and_eq_true, decide_eq_true_eq, beq_iff_eq]
  omega

theorem itemLe_trans (sb : SortBy) : ∀ a b c : Item,
    itemLe sb a b = true → itemLe sb b c = true → itemLe sb a c = true := by
  intro a b c h1 h2
  cases sb with
  | votes => exact keyLe_trans h1 h2
  | comments => exact keyLe_trans h1 h2
  | latest =>
    simp only [itemLe, decide_eq_true_eq] at h1 h2 ⊢
    omega

theorem itemLe_total (sb : SortBy) : ∀ a b : Item, (itemLe sb a b || itemLe sb b a) = true := by
  intro a b
  cases sb with
  | votes => exact keyLe_total a.votes_count b.votes_count a.post.created_at b.post.created_at
  | comments =>
    exact keyLe_total a.comments_count b.comments_count a.post.created_at b.post.created_at
  | latest =>
    simp only [itemLe, Bool.or_eq_true, decide_eq_true_eq]
    omega

theorem create_post_endpoint_votes (s : Store) (now : Int) (raw : PostCreateRaw) :
    (create_post_endpoint s now raw).2.votes = s.votes := by
  unfold create_post_endpoint
  cases validatePostCreate raw <;> rfl

theorem add_comment_votes (s : Store) (now : Int) (payload : CommentCreate) :
    (add_comment s now payload).2.votes = s.votes := by
  unfold add_comment
  cases findPost s payload.post_id <;> rfl

/-- C1: the claim says each listed item carries votes_count equal to the
number of vote records whose post_id as text equals the post id as text
(comments_count analogously).  The code disagrees: its lookup stages give
both a localField/foreignField pair and a pipeline, so MongoDB ANDs an
ObjectId-versus-string equality (never true) into the match, and both
counts come out 0 even when matching votes and comments exist.  At a store
holding one post with exactly one matching vote and one matching comment,
the listing reports votes_count = 0 and comments_count = 0. -/
theorem C1_lookup_counts_diverge :
    (storeC1.votes.filter (fun v => v.post_id == oidToString post1.id)).length = 1 ∧
    (storeC1.comments.filter (fun c => c.post_id == oidToString post1.id)).length = 1 ∧
    (list_posts storeC1 0 1 8 Timeframe.all SortBy.latest).items.map Item.votes_count = [0] ∧
    (list_posts storeC1 0 1 8 Timeframe.all SortBy.latest).items.map Item.comments_count = [0] := by
  refine ⟨?_, ?_, ?_, ?_⟩
  · simp [storeC1, vote1, post1]
  · simp [storeC1, comment1, post1]
  · simp [list_posts, storeC1, timeMatch, enrich, List.mergeSort_singleton,
      voteLookupMatch_false, commentLookupMatch_false]
  · simp [list_posts, storeC1, timeMatch, enrich, List.mergeSort_singleton,
      voteLookupMatch_false, commentLookupMatch_false]

/-- C2: for valid page (at least 1) and page_size (between 1 and 50), the
listing returns at most page_size items, and the items are exactly the
slice from (page - 1) * page_size of length page_size of the full
time-filtered, enriched, sorted sequence. -/
theorem C2_pagination_slice (s : Store) (now : Int) (page page_size : Nat)
    (tf : Timeframe) (sb : SortBy)
    (h1 : 1 ≤ page) (h2 : 1 ≤ page_size) (h3 : page_size ≤ 50) :
    (list_posts s now page page_size tf sb).items.length ≤ page_size ∧
    (list_posts s now page page_size tf sb).items =
      ((((s.posts.filter (timeMatch tf now)).map (enrich s)).mergeSort (itemLe sb)).drop
        ((page - 1) * page_size)).take page_size :=
  ⟨List.length_take_le _ _, rfl⟩

theorem C2_pagination_slice_witness :
    (list_posts store0 0 1 1 Timeframe.all SortBy.votes).items.length ≤ 1 ∧
    (list_posts store0 0 1 1 Timeframe.all SortBy.votes).items =
      ((((store0.posts.filter (timeMatch Timeframe.all 0)).map (enrich store0)).mergeSort
        (itemLe SortBy.votes)).drop ((1 - 1) * 1)).take 1 :=
  C2_pagination_slice store0 0 1 1 Timeframe.all SortBy.votes (by decide) (by decide) (by decide)

/-- C3: the total of a listing response equals the count of posts whose
created_at lies in the requested timeframe window (at or after now minus 7
days for week, now minus 30 days for month, unrestricted for all), and for
a fixed timeframe it does not depend on page, page_size or sort_by. -/
theorem C3_total_timeframe_count (s : Store) (now : Int)
    (page page_size page2 page_size2 : Nat) (tf : Timeframe) (sb sb2 : SortBy) :
    (list_posts s now page page_size tf sb).total =
      (s.posts.filter (timeMatch tf now)).length ∧
    (list_posts s now page page_size tf sb).total =
      (list_posts s now page2 page_size2 tf sb2).total ∧
    (∀ p : Post, timeMatch Timeframe.week now p = true ↔
      now - 7 * secondsPerDay ≤ p.created_at) ∧
    (∀ p : Post, timeMatch Timeframe.month now p = true ↔
      now - 30 * secondsPerDay ≤ p.created_at) ∧
    (∀ p : Post, timeMatch Timeframe.all now p = true) := by
  refine ⟨rfl, rfl, ?_, ?_, ?_⟩ <;> intro p <;> simp [timeMatch]

/-- C4: the items of a listing response are pairwise ordered by the
selected sort relation: votes_count descending with created_at descending
as tie-break for votes, comments_count descending with created_at
descending for comments, and created_at descending alone for latest. -/
theorem C4_items_sorted (s : Store) (now : Int) (page page_size : Nat)
    (tf : Timeframe) (sb : SortBy) :
    (list_posts s now page page_size tf sb).items.Pairwise
      (fun a b => itemLe sb a b = true) := by
  have hs := List.sorted_mergeSort (itemLe_trans sb) (itemLe_total sb)
    ((s.posts.filter (timeMatch tf now)).map (enrich s))
  exact List.Pairwise.sublist ((List.take_sublist _ _).trans (List.drop_sublist _ _)) hs

/-- C10: the defaults of the listing parameters are page = 1, page_size =
8, timeframe = all and sort_by = votes, so a bare GET /api/posts returns
the first 8 items of the votes-sorted, unfiltered set, with total the
count of every post. -/
theorem C10_default_parameters (s : Store) (now : Int) :
    defaultPage = 1 ∧ defaultPageSize = 8 ∧ defaultTimeframe = Timeframe.all ∧
    defaultSortBy = SortBy.votes ∧
    list_posts_default s now = list_posts s now 1 8 Timeframe.all SortBy.votes ∧
    (list_posts_default s now).items =
      ((s.posts.map (enrich s)).mergeSort (itemLe SortBy.votes)).take 8 ∧
    (list_posts_default s now).total = s.posts.length := by
  have hf : s.posts.filter (timeMatch Timeframe.all now) = s.posts :=
    List.filter_eq_self.mpr (fun a _ => rfl)
  refine ⟨rfl, rfl, rfl, rfl, rfl, ?_, ?_⟩
  · simp only [list_posts_default, list_posts, defaultPage, defaultPageSize,
      defaultTimeframe, defaultSortBy, hf]
    simp
  · simp only [list_posts_default, list_posts, defaultTimeframe, hf]

/-- C5: starting from a state with no live vote for an existing post P and
a client c, toggling twice reports status voted then status unvoted,
leaves no live vote for the pair, and restores the vote store to its
initial contents. -/
theorem C5_vote_toggle_round_trip (s : Store) (n1 n2 : Int) (pid cid : String) (p : Post)
    (hpost : findPost s pid = some p)
    (hnone : s.votes.find? (voteKeyMatch pid cid) = none)
    (hfresh : ∀ v ∈ s.votes, v.id ≠ s.nextId) :
    ∃ vid s1 s2,
      toggle_vote s n1 pid cid = (.ok { status := "voted", id := some vid }, s1) ∧
      toggle_vote s1 n2 pid cid = (.ok { status := "unvoted", id := none }, s2) ∧
      s2.votes = s.votes ∧ liveVotes s2 pid cid = [] := by
  have h1 : toggle_vote s n1 pid cid =
      (.ok { status := "voted", id := some (oidToString s.nextId) },
       { s with votes := s.votes ++ [mkVote s.nextId pid cid n1], nextId := s.nextId + 1 }) := by
    unfold toggle_vote
    rw [hpost, hnone]
    rfl
  have hpost1 : findPost
      { s with votes := s.votes ++ [mkVote s.nextId pid cid n1], nextId := s.nextId + 1 }
      pid = some p := hpost
  have hfind1 : (s.votes ++ [mkVote s.nextId pid cid n1]).find? (voteKeyMatch pid cid) =
      some (mkVote s.nextId pid cid n1) := by
    rw [List.find?_append, hnone]
    simp [voteKeyMatch, mkVote]
  have herase : (s.votes ++ [mkVote s.nextId pid cid n1]).eraseP
      (fun v => v.id == (mkVote s.nextId pid cid n1).id) = s.votes := by
    apply eraseP_append_singleton
    · intro x hx
      simpa [mkVote] using beq_eq_false_iff_ne.mpr (hfresh x hx)
    · simp
  have h2 : toggle_vote
      { s with votes := s.votes ++ [mkVote s.nextId pid cid n1], nextId := s.nextId + 1 }
      n2 pid cid =
      (.ok { status := "unvoted", id := none },
       { s with votes := s.votes, nextId := s.nextId + 1 }) := by
    unfold toggle_vote
    simp only [hpost1, hfind1, herase]
  have hlive : liveVotes { s with votes := s.votes, nextId := s.nextId + 1 } pid cid = [] := by
    show s.votes.filter (voteKeyMatch pid cid) = []
    exact List.filter_eq_nil_iff.mpr (List.find?_eq_none.mp hnone)
  exact ⟨oidToString s.nextId, _, _, h1, h2, rfl, hlive⟩

theorem C5_vote_toggle_round_trip_witness :
    ∃ vid s1 s2,
      toggle_vote storeW 0 (oidToString 1) "c1" = (.ok { status := "voted", id := some vid }, s1) ∧
      toggle_vote s1 0 (oidToString 1) "c1" = (.ok { status := "unvoted", id := none }, s2) ∧
      s2.votes = storeW.votes ∧ liveVotes s2 (oidToString 1) "c1" = [] := by
  apply C5_vote_toggle_round_trip storeW 0 0 (oidToString 1) "c1" postW
  · simp [findPost, parse_render, storeW, postW]
  · rfl
  · simp [storeW]

/-- C6: every operation of the system, run sequentially on a configured
store, preserves the invariant that each (post_id, client_id) pair has at
most one live vote. -/
theorem C6_at_most_one_vote_preserved (s : Store) (now : Int) (op : Op)
    (hinv : atMostOneVote s) : atMostOneVote (step s now op) := by
  intro pid cid
  cases op with
  | createPostOp raw =>
    show ((create_post_endpoint s now raw).2.votes.filter (voteKeyMatch pid cid)).length ≤ 1
    rw [create_post_endpoint_votes]
    exact hinv pid cid
  | addCommentOp payload =>
    show ((add_comment s now payload).2.votes.filter (voteKeyMatch pid cid)).length ≤ 1
    rw [add_comment_votes]
    exact hinv pid cid
  | toggleVoteOp pid0 cid0 =>
    show ((toggle_vote s now pid0 cid0).2.votes.filter (voteKeyMatch pid cid)).length ≤ 1
    unfold toggle_vote
    cases hp : findPost s pid0 with
    | none => exact hinv pid cid
    | some p =>
      cases hf : s.votes.find? (voteKeyMatch pid0 cid0) with
      | some existing =>
        exact le_trans ((List.eraseP_sublist _).filter (voteKeyMatch pid cid)).length_le
          (hinv pid cid)
      | none =>
        show ((s.votes ++ [mkVote s.nextId pid0 cid0 now]).filter
            (voteKeyMatch pid cid)).length ≤ 1
        rw [List.filter_append, List.length_append]
        by_cases hm : voteKeyMatch pid cid (mkVote s.nextId pid0 cid0 now) = true
        · have hpair : pid0 = pid ∧ cid0 = cid := by
            simpa [voteKeyMatch, mkVote] using hm
          obtain ⟨he1, he2⟩ := hpair
          subst he1
          subst he2
          have hempty : s.votes.filter (voteKeyMatch pid0 cid0) = [] :=
            List.filter_eq_nil_iff.mpr (List.find?_eq_none.mp hf)
          simp [hempty, List.filter_cons, hm]
        · have hm0 : voteKeyMatch pid cid (mkVote s.nextId pid0 cid0 now) = false := by
            simpa using hm
          simp only [List.filter_cons, hm0, List.filter_nil, List.length_nil, Nat.add_zero]
          exact hinv pid cid
  | listPostsOp page page_size tf sb => exact hinv pid cid
  | listCommentsOp pid0 => exact hinv pid cid
  | rootOp => exact hinv pid cid

theorem C6_at_most_one_vote_preserved_witness :
    atMostOneVote (step storeW 0 (.toggleVoteOp (oidToString 1) "c1")) := by
  apply C6_at_most_one_vote_preserved storeW 0 (.toggleVoteOp (oidToString 1) "c1")
  intro pid cid
  simp [liveVotes, storeW]

/-- C7: comment creation and vote toggling against a post_id that does not
resolve to an existing post (including malformed identifier text) both
fail with the not-found error and leave the store exactly as it was. -/
theorem C7_missing_post_rejected (s : Store) (now : Int) (payload : CommentCreate)
    (pid cid : String)
    (h1 : findPost s payload.post_id = none) (h2 : findPost s pid = none) :
    add_comment s now payload = (.error .notFound, s) ∧
    toggle_vote s now pid cid = (.error .notFound, s) := by
  constructor
  · unfold add_comment
    rw [h1]
  · unfold toggle_vote
    rw [h2]

theorem C7_missing_post_rejected_witness :
    add_comment store0 0 { post_id := "no-such-post", content := "hi", author_name := none } =
      (.error .notFound, store0) ∧
    toggle_vote store0 0 "no-such-post" "c1" = (.error .notFound, store0) :=
  C7_missing_post_rejected store0 0
    { post_id := "no-such-post", content := "hi", author_name := none } "no-such-post" "c1"
    (findPost_empty_posts store0 rfl _) (findPost_empty_posts store0 rfl _)

/-- C8 counterexample: the claim says a creation request whose title or
description is the empty string fails validation before any store
interaction, and that a post is created only when both are non-empty.  The
PostCreate model declares title and description as plain required str
fields with no minimum length, so the empty-string request passes
validation and a post with empty title and description is inserted. -/
theorem C8_empty_string_accepted :
    validatePostCreate rawEmptyFields =
      .ok { title := "", description := "", link := none, tags := [], author_name := none } ∧
    create_post_endpoint store0 0 rawEmptyFields =
      (.ok (oidToString 0),
       { posts := [{ id := 0, title := "", description := "", link := none, tags := [],
                     author_name := none, created_at := 0, updated_at := 0 }],
         votes := [], comments := [], nextId := 1 }) :=
  ⟨rfl, rfl⟩

/-- C8 amended: a post-creation request fails with a validation error
before any store interaction exactly when title or description is absent
from the body; whenever both are present as text, empty strings included,
validation succeeds and a post carrying exactly those field values is
inserted. -/
theorem C8_validation_requires_presence (raw : PostCreateRaw) (s : Store) (now : Int) :
    ((raw.title = none ∨ raw.description = none) →
      ∃ f, create_post_endpoint s now raw = (.error (.validationError f), s)) ∧
    (∀ t d, raw.title = some t → raw.description = some d →
      create_post_endpoint s now raw =
        (.ok (oidToString s.nextId),
         { s with
           posts := s.posts ++ [{ id := s.nextId, title := t, description := d,
                                  link := raw.link.getD none, tags := raw.tags.getD [],
                                  author_name := raw.author_name.getD none,
                                  created_at := now, updated_at := now }]
           nextId := s.nextId + 1 })) := by
  constructor
  · intro hmiss
    rcases hmiss with hmiss | hmiss
    · exact ⟨"title", by unfold create_post_endpoint validatePostCreate; rw [hmiss]⟩
    · cases ht : raw.title with
      | none => exact ⟨"title", by unfold create_post_endpoint validatePostCreate; rw [ht]⟩
      | some t =>
        exact ⟨"description", by
          unfold create_post_endpoint validatePostCreate
          rw [ht, hmiss]⟩
  · intro t d ht hd
    unfold create_post_endpoint validatePostCreate
    rw [ht, hd]
    rfl

theorem C8_validation_requires_presence_witness :
    ∃ f, create_post_endpoint store0 0
        { title := none, description := some "d", link := none, tags := none,
          author_name := none } =
      (.error (.validationError f), store0) :=
  (C8_validation_requires_presence
    { title := none, description := some "d", link := none, tags := none,
      author_name := none } store0 0).1 (Or.inl rfl)

/-- C9: GET /api/comments/{post_id} performs no post-existence check: for
every post_id string it succeeds, returning exactly the comments whose
post_id field equals that string; when every stored comment references an
existing post and the given post_id resolves to no post, the returned item
list is empty rather than a not-found error (unlike comment creation and
vote toggling). -/
theorem C9_list_comments_no_existence_check (s : Store) (pid : String) :
    list_comments s pid = .ok { items := s.comments.filter (fun c => c.post_id == pid) } ∧
    ((∀ c ∈ s.comments, ∃ p ∈ s.posts, c.post_id = oidToString p.id) →
      findPost s pid = none → list_comments s pid = .ok { items := [] }) := by
  refine ⟨rfl, fun hint hnone => ?_⟩
  have hfil : s.comments.filter (fun c => c.post_id == pid) = [] := by
    apply List.filter_eq_nil_iff.mpr
    intro c hc hbeq
    have hceq : c.post_id = pid := by simpa using hbeq
    obtain ⟨p, hp, hpid⟩ := hint c hc
    have hparse : parseObjectId pid = some p.id := by
      rw [← hceq, hpid]
      exact parse_render p.id
    unfold findPost at hnone
    rw [hparse] at hnone
    have hnp := List.find?_eq_none.mp hnone p hp
    simp at hnp
  unfold list_comments get_documents_comment
  rw [hfil]

theorem C9_list_comments_no_existence_check_witness :
    list_comments store0 "zz" = .ok { items := [] } :=
  (C9_list_comments_no_existence_check store0 "zz").2 (by simp [store0])
    (findPost_empty_posts store0 rfl "zz")

end VibeHunt
